import Mathlib

/-!
Verification of the regis-companion tunnel subsystem against its
natural-language specification.  The Go source is shallowly embedded:
pure logic becomes Lean functions, stateful code becomes explicit state
passing, the concurrent registry becomes a small labelled transition
system, and blocking behaviour is reified as an explicit result
constructor.  Durations are modelled in milliseconds (the source uses
`time.Duration` with `5*time.Millisecond` and `1*time.Second`).
-/

namespace RegisCompanion

/-! ## Idle tracker (src/common/idletracker.go)

`IdleTracker.Touch` atomically increments `currentCounter`; the polling
worker and `previousCounter` are not needed by the claims below. -/

structure IdleTracker where
  currentCounter : Nat
  previousCounter : Nat
deriving DecidableEq

/-- `func (t *IdleTracker) Touch()` — atomic increment of the current counter. -/
def IdleTracker.touch (t : IdleTracker) : IdleTracker :=
  { t with currentCounter := t.currentCounter + 1 }

/-! ## Tunnel (src/tunnel/tunnel.go)

The tunnel state constants `none`, `started`, `closed` (tunnel.go:34-38).
The spec calls these states fresh, serving and closed. -/

inductive TunnelState where
  | none
  | started
  | closed
deriving DecidableEq

/-- The embedded RetryServer value held in `Tunnel.server`; only its
idle tracker is relevant to the claims. -/
structure RetryServerField where
  idleTracker : IdleTracker
deriving DecidableEq

/-- The `killed` channel of a Tunnel: `Option.none` models a nil channel
(the field before `Serve` assigns it), `some false` an open channel and
`some true` a closed channel. -/
abbrev KilledChan := Option Bool

/-- Shallow embedding of `tunnel.Tunnel` (tunnel.go:43-76): the mutable
fields relevant to Touch / KillAndWait / Serve.  `killFuncIsNil` records
whether the `KillFunc` field is nil. -/
structure Tunnel where
  state : TunnelState
  server : RetryServerField
  killFuncIsNil : Bool
  killed : KilledChan
deriving DecidableEq

/-- `func (t *Tunnel) Touch() bool` (tunnel.go:91-108).  A nil receiver
is modelled by `Option.none`.  The source checks only `state == closed`
("Touch could be called before the Tunnel.serve goroutine was launched,
... So just check that it is not closed"); otherwise it calls
`t.server.IdleTracker.Touch()` and returns true. -/
def Tunnel.Touch : Option Tunnel → Option Tunnel × Bool
  | Option.none => (Option.none, false)
  | Option.some t =>
    if t.state = TunnelState.closed then (Option.some t, false)
    else
      (Option.some { t with server := { t.server with idleTracker := t.server.idleTracker.touch } },
        true)

/-- Possible behaviours of a call to `KillAndWait`: it returns, it blocks
forever (a receive from a nil channel), or it blocks until the `killed`
channel is closed by `Serve`'s deferred cleanup. -/
inductive KillAndWaitResult where
  | returnsNow
  | blocksForever
  | blocksUntilKilled
deriving DecidableEq

/-- `func (t *Tunnel) KillAndWait()` (tunnel.go:80-86).  The result pairs
the blocking behaviour with whether `KillFunc` was invoked.  With a
non-nil `KillFunc` the source executes `t.KillFunc()` then `<-t.killed`;
a receive from a nil channel blocks forever. -/
def Tunnel.KillAndWait : Option Tunnel → KillAndWaitResult × Bool
  | Option.none => (KillAndWaitResult.returnsNow, false)
  | Option.some t =>
    if t.killFuncIsNil then (KillAndWaitResult.returnsNow, false)
    else
      match t.killed with
      | Option.none => (KillAndWaitResult.blocksForever, true)
      | Option.some true => (KillAndWaitResult.returnsNow, true)
      | Option.some false => (KillAndWaitResult.blocksUntilKilled, true)

/-- The state transition at the top of `func (t *Tunnel) Serve`
(tunnel.go:112-131): fresh tunnels move to `started` and allocate the
`killed` channel; otherwise an error string is returned. -/
def Tunnel.ServeBegin (t : Tunnel) : Except String Tunnel :=
  match t.state with
  | TunnelState.none =>
    Except.ok { t with state := TunnelState.started, killed := Option.some false }
  | TunnelState.started => Except.error "tunnel already started"
  | TunnelState.closed => Except.error "tunnel closed"

/-- The deferred cleanup of `Tunnel.Serve` (tunnel.go:138-147): the state
becomes `closed` and the `killed` channel is closed. -/
def Tunnel.ServeFinish (t : Tunnel) : Tunnel :=
  { t with state := TunnelState.closed, killed := Option.some true }

/-! ## Retry server (src/common/retryserver.go)

`RetryServer.Serve` loops on `Listener.Accept`.  The stream of accept
outcomes, together with whether the stop context's `Done` channel had
fired when the post-error `select` runs, is modelled as an explicit
script.  Delays are in milliseconds. -/

/-- An error returned by `Accept`: its message, whether its root cause
implements the `Temporary() bool` interface, and the value that method
returns. -/
structure AcceptError where
  msg : String
  hasTemporary : Bool
  temporary : Bool
deriving DecidableEq

/-- The transient test of `handleTemporary` (retryserver.go:112-114):
the root error must expose `Temporary()` and it must return true. -/
def AcceptError.isTemporary (e : AcceptError) : Bool :=
  e.hasTemporary && e.temporary

/-- One outcome of `Listener.Accept`: a connection or an error. -/
inductive AcceptOutcome where
  | conn
  | err (e : AcceptError)
deriving DecidableEq

/-- One iteration of the accept loop: the accept outcome and whether the
context's Done channel had fired at the `select` check that follows an
accept error (retryserver.go:82-87). -/
structure ServeStep where
  accept : AcceptOutcome
  doneFired : Bool
deriving DecidableEq

/-- Delay update of `handleTemporary` (retryserver.go:115-122): a zero
delay becomes 5 ms, otherwise the delay doubles, and the result is
capped at 1000 ms (1 s). -/
def handleTemporaryDelay (delay : Nat) : Nat :=
  let d := if delay = 0 then 5 else delay * 2
  if d > 1000 then 1000 else d

/-- What `Serve` returns: the root accept error (the source returns it
wrapped as "Accept error: ..."), whether it was returned through the
stop-signal branch, the total backoff sleep in ms, the number of
successfully accepted (dispatched) connections, and the errors reported
through the error channel (the source reports them wrapped as
"temporary error, retrying in ..."). -/
structure ServeReturn where
  retErr : AcceptError
  retAfterDone : Bool
  totalSleep : Nat
  accepted : Nat
  reported : List AcceptError
deriving DecidableEq

/-- The accept loop of `func (s *RetryServer) Serve` (retryserver.go:75-104)
run over a finite script.  `Option.none` means the script was exhausted
with the loop still blocked in `Accept` (the real loop only ever exits
by returning an error).  On a successful accept the delay resets to 0
and the connection is dispatched; on an error the stop signal is checked
first, then `handleTemporary` either sleeps and retries or the error is
returned at once. -/
def ServeLoop : List ServeStep → Nat → Nat → Nat → List AcceptError → Option ServeReturn
  | [], _, _, _, _ => Option.none
  | step :: rest, delay, slept, acc, rep =>
    match step.accept with
    | AcceptOutcome.conn => ServeLoop rest 0 slept (acc + 1) rep
    | AcceptOutcome.err e =>
      if step.doneFired then Option.some ⟨e, true, slept, acc, rep⟩
      else if e.isTemporary then
        let d := handleTemporaryDelay delay
        ServeLoop rest d (slept + d) acc (rep ++ [e])
      else Option.some ⟨e, false, slept, acc, rep⟩

/-- The capped geometric backoff schedule: the delay used for the
(i+1)-st consecutive transient error. -/
def backoffSchedule (i : Nat) : Nat :=
  min (5 * 2 ^ i) 1000

/-- Total sleep after n consecutive transient errors starting from a
reset delay. -/
def backoffSum (n : Nat) : Nat :=
  ∑ i ∈ Finset.range n, backoffSchedule i

/-! ## Tunnel registry (src/server/server.go)

The registry is `map[tunnelKey]*tunnel.Tunnel` guarded by `s.mu`.
`getTunnelAddr` (server.go:360-404) looks up the key, reuses the tunnel
when `Touch` returns true, and otherwise inserts a freshly constructed
tunnel and spawns `go s.serveTunnel(ctx, tun, l)` — both while holding
the lock.  The spawned goroutine performs the fresh→started transition
of `Tunnel.Serve` only later, so the interleavings are modelled as a
labelled transition system over the map contents. -/

/-- `addr.HostPortAddr` (src/addr/hostportaddr.go): unresolved host and
port. -/
structure HostPortAddr where
  Host : String
  Port : Nat
deriving DecidableEq

/-- `tunnelKey` (server.go:295-299). -/
structure tunnelKey where
  User : String
  Server : HostPortAddr
  Remote : HostPortAddr
deriving DecidableEq

/-- A registry entry as seen through the map: the tunnel's lifecycle
state plus whether its `Serve` goroutine has been spawned
(server.go:401 spawns it in `getTunnelAddr` itself, under the lock). -/
structure RegisteredTunnel where
  state : TunnelState
  serveSpawned : Bool
deriving DecidableEq

/-- The registry map, modelled as an association list. -/
abbrev RegistryMap := List (tunnelKey × RegisteredTunnel)

/-- Go map read `s.tunnels[key]`. -/
def registryLookup (m : RegistryMap) (k : tunnelKey) : Option RegisteredTunnel :=
  match m with
  | [] => Option.none
  | (k2, e) :: rest => if k2 = k then Option.some e else registryLookup rest k

/-- Go map write `s.tunnels[key] = tun` (replace or add). -/
def registryInsert (m : RegistryMap) (k : tunnelKey) (e : RegisteredTunnel) : RegistryMap :=
  match m with
  | [] => [(k, e)]
  | (k2, e2) :: rest =>
    if k2 = k then (k, e) :: rest else (k2, e2) :: registryInsert rest k e

/-- Events interleaved on the registry:
* `getTunnelAddrHit k` — getTunnelAddr finds the key and `Touch` returns
  true (server.go:366-372); the map is unchanged.
* `getTunnelAddrLaunch k` — the miss path (server.go:374-401): a fresh
  tunnel is stored under the key and its Serve goroutine is spawned,
  both under the registry lock.
* `tunnelServeStart k` — the spawned goroutine reaches the fresh→started
  transition of `Tunnel.Serve` (tunnel.go:113-131).
* `tunnelServeReturn k` — `Tunnel.Serve` returns and its deferred
  cleanup marks the tunnel closed (tunnel.go:138-147). -/
inductive RegistryEvent where
  | getTunnelAddrHit (k : tunnelKey)
  | getTunnelAddrLaunch (k : tunnelKey)
  | tunnelServeStart (k : tunnelKey)
  | tunnelServeReturn (k : tunnelKey)

/-- Effect of one event on the registry map. -/
def registryStep (m : RegistryMap) : RegistryEvent → RegistryMap
  | RegistryEvent.getTunnelAddrHit _ => m
  | RegistryEvent.getTunnelAddrLaunch k =>
    registryInsert m k ⟨TunnelState.none, true⟩
  | RegistryEvent.tunnelServeStart k =>
    match registryLookup m k with
    | Option.some e =>
      if e.state = TunnelState.none then registryInsert m k ⟨TunnelState.started, e.serveSpawned⟩
      else m
    | Option.none => m
  | RegistryEvent.tunnelServeReturn k =>
    match registryLookup m k with
    | Option.some e =>
      if e.state = TunnelState.started then registryInsert m k ⟨TunnelState.closed, e.serveSpawned⟩
      else m
    | Option.none => m

/-- Registry maps reachable from the empty map created by
`Server.serve` (server.go:445). -/
inductive RegistryReachable : RegistryMap → Prop
  | init : RegistryReachable []
  | step (m : RegistryMap) (ev : RegistryEvent) :
      RegistryReachable m → RegistryReachable (registryStep m ev)

/-! ## killTunnel lock discipline (src/server/server.go:416-430)

The body is: `s.mu.Lock(); defer s.mu.Unlock(); tun := s.tunnels[key];
if tun == nil { return nil }; tun.KillAndWait(); return nil`.  The
deferred unlock runs only when the function returns, i.e. after
`KillAndWait` has completed.  The sequence of lock and call events is
recorded as a trace. -/

inductive KillTunnelEvent where
  | lockAcquire
  | mapLookup
  | killAndWaitCall
  | lockRelease
deriving DecidableEq

/-- The event trace of `Server.killTunnel`, as a function of whether the
map holds a tunnel for the key. -/
def killTunnelTrace (present : Bool) : List KillTunnelEvent :=
  [KillTunnelEvent.lockAcquire, KillTunnelEvent.mapLookup]
    ++ (if present then [KillTunnelEvent.killAndWaitCall] else [])
    ++ [KillTunnelEvent.lockRelease]

/-- The registry mutex is held when the event at index i executes:
more acquisitions than releases appear strictly before it. -/
def lockHeldAt (tr : List KillTunnelEvent) (i : Nat) : Prop :=
  (tr.take i).count KillTunnelEvent.lockRelease
    < (tr.take i).count KillTunnelEvent.lockAcquire

instance (tr : List KillTunnelEvent) (i : Nat) : Decidable (lockHeldAt tr i) := by
  unfold lockHeldAt
  infer_instance

/-! ## Command table (src/server/server.go:280-293)

`init` fills `supportedCommands` with the commands `command`,
`gettunneladdr`, `killtunnel`, `info`, `ping`, collects the keys and
sorts them with `sort.Strings`.  (A `checkUpdatesCmd` type exists in
src/server/checkupdates_cmd.go but no key registers it.)  Sorting makes
the result independent of Go's map iteration order, so the keys are
listed here in source order. -/

def supportedCommandNames : List String :=
  ["command", "gettunneladdr", "killtunnel", "info", "ping"]

/-- Go string order on character lists: lexicographic with the shorter
prefix first (UTF-8 byte order coincides with code-point order). -/
def charListLe : List Char → List Char → Bool
  | [], _ => true
  | _ :: _, [] => false
  | a :: as, b :: bs =>
    if a.toNat = b.toNat then charListLe as bs
    else decide (a.toNat < b.toNat)

/-- The `s[i] <= s[j]` order used by Go's `sort.Strings`. -/
def stringLe (a b : String) : Bool :=
  charListLe a.data b.data

/-- Insert into a sorted list of strings. -/
def insertSortedString (x : String) : List String → List String
  | [] => [x]
  | y :: ys => if stringLe x y then x :: y :: ys else y :: insertSortedString x ys

/-- Model of `sort.Strings` (insertion sort; the result is the unique
sorted permutation, so the algorithm choice is immaterial). -/
def sortStrings : List String → List String
  | [] => []
  | x :: xs => insertSortedString x (sortStrings xs)

/-- `commandNames`, the sorted key list built by `init`. -/
def commandNames : List String :=
  sortStrings supportedCommandNames

/-- `func (c commandCmd) Execute` (src/server/command_cmd.go:15-17):
returns `commandNames`. -/
def commandCmdExecute (_req : List String) : List String :=
  commandNames

/-! ## CHECKUPDATES (src/server/checkupdates_cmd.go)

`readRelease` unmarshals `{"tag_name": ...}` into a struct with a
string `TagName` field: a missing field or a JSON null leaves the zero
value "", a JSON string yields that string.  `Execute` replies the
boolean `v != Version`. -/

/-- The `tag_name` field of the release JSON body. -/
inductive TagName where
  | missing
  | null
  | tag (s : String)
deriving DecidableEq

/-- `readRelease` (checkupdates_cmd.go:50-63) on a well-formed JSON
body: the string that `json.Unmarshal` leaves in `TagName`. -/
def readRelease : TagName → String
  | TagName.missing => ""
  | TagName.null => ""
  | TagName.tag s => s

/-- Outcome of `c.client.Do(hreq)`. -/
inductive HTTPOutcome where
  | ok (body : TagName)
  | err (msg : String)
deriving DecidableEq

/-! ## RESP reply values and encoder (src/resp/encode.go)

The dynamic (`interface{}`) reply value handed to `Encoder.Encode`,
with one constructor per case of the `encodeValue` type switch
(encode.go:78-123) plus `byteSlice` for a `[]byte` value, which matches
no case and falls through to the default `ErrInvalidValue` branch. -/

inductive RValue where
  | okSentinel
  | pong
  | boolean (b : Bool)
  | simpleString (s : String)
  | respError (s : String)
  | integer (i : Int)
  | str (s : String)
  | bulkString (s : String)
  | stringArray (a : List String)
  | arrayValue (a : List RValue)
  | nilValue
  | byteSlice (body : String)

/-- `ErrInvalidValue` (encode.go:21). -/
def ErrInvalidValue : String := "resp: invalid value"

/-- `encodePrefixed` (encode.go:197-205). -/
def encodePrefixed (p : Char) (v : String) : String :=
  String.singleton p ++ v ++ "\r\n"

/-- `encodeBulkString` (encode.go:170-175): `$<len>\r\n<bytes>\r\n`,
where the length counts bytes. -/
def encodeBulkString (v : String) : String :=
  encodePrefixed '$' (toString v.utf8ByteSize ++ "\r\n" ++ v)

mutual

/-- `encodeValue` (encode.go:78-123).  `[]byte` (and any other type
outside the switch) hits the default branch and yields
`ErrInvalidValue`.  Nil Go slices (encoded as `*-1`) have no
counterpart in the `List` model and are not needed by the claims. -/
def encodeValue : RValue → Except String String
  | RValue.okSentinel => Except.ok "+OK\r\n"
  | RValue.pong => Except.ok "+PONG\r\n"
  | RValue.boolean b => Except.ok (if b then ":1\r\n" else ":0\r\n")
  | RValue.simpleString s => Except.ok (encodePrefixed '+' s)
  | RValue.respError s => Except.ok (encodePrefixed '-' s)
  | RValue.integer i => Except.ok (encodePrefixed ':' (toString i))
  | RValue.str s => Except.ok (encodeBulkString s)
  | RValue.bulkString s => Except.ok (encodeBulkString s)
  | RValue.stringArray a =>
    Except.ok (encodePrefixed '*' (toString a.length) ++ String.join (a.map encodeBulkString))
  | RValue.arrayValue a =>
    match encodeValueList a with
    | Except.ok s => Except.ok (encodePrefixed '*' (toString a.length) ++ s)
    | Except.error e => Except.error e
  | RValue.nilValue => Except.ok (encodePrefixed '$' "-1")
  | RValue.byteSlice _ => Except.error ErrInvalidValue

/-- Element loop of `encodeArray` (encode.go:149-167). -/
def encodeValueList : List RValue → Except String String
  | [] => Except.ok ""
  | v :: vs =>
    match encodeValue v with
    | Except.error e => Except.error e
    | Except.ok s =>
      match encodeValueList vs with
      | Except.error e => Except.error e
      | Except.ok s2 => Except.ok (s ++ s2)

end

/-- `func (c checkUpdatesCmd) Execute` (checkupdates_cmd.go:24-48) for a
well-formed JSON body: arity check, HTTP errors become protocol-error
replies, and the reply is the boolean `v != Version`. -/
def checkUpdatesExecute (cmdName version : String) (req : List String)
    (res : HTTPOutcome) : RValue :=
  if req.length ≠ 1 then
    RValue.respError ("ERR wrong number of arguments for " ++ cmdName)
  else
    match res with
    | HTTPOutcome.err m => RValue.respError ("ERR request failed: " ++ m)
    | HTTPOutcome.ok body => RValue.boolean (readRelease body != version)

/-! ## INFO (src/server/info_cmd.go)

`infoCmd.Execute` builds the body in a `bytes.Buffer` and returns
`buf.Bytes()`, a `[]byte`.  The runtime figures (process id, memory
statistics, CPU counts) are inputs of the model; `gc_cpu_fraction` is
rendered by `%f` from a float and is carried as its rendered string. -/

structure MemStats where
  alloc : Nat
  totalAlloc : Nat
  sys : Nat
  lookups : Nat
  mallocs : Nat
  frees : Nat
  heapAlloc : Nat
  heapSys : Nat
  heapIdle : Nat
  heapInuse : Nat
  heapReleased : Nat
  heapObjects : Nat
  stackInuse : Nat
  stackSys : Nat
  mspanInuse : Nat
  mspanSys : Nat
  mcacheInuse : Nat
  mcacheSys : Nat
  buckHashSys : Nat
  gcSys : Nat
  otherSys : Nat
  nextGC : Nat
  lastGC : Nat
  pauseTotalNs : Nat
  numGC : Nat
  numForcedGC : Nat
  gcCpuFraction : String
deriving DecidableEq

/-- The process-level values read by `infoCmd.Execute`. -/
structure SysInfo where
  version : String
  gitHash : String
  goVersion : String
  goCompiler : String
  osName : String
  arch : String
  processId : Nat
  tcpPort : Nat
  executable : String
  hostname : String
  mem : MemStats
  numCpu : Nat
  numGoroutines : Nat
  gomaxprocs : Nat
  stats : Option (List (String × String))
deriving DecidableEq

/-- The `# Server` block (info_cmd.go:54-64). -/
def serverSection (si : SysInfo) : String :=
  "# Server\r\n"
    ++ "regis-companion_version:" ++ si.version ++ "\r\n"
    ++ "regis-companion_git_sha1:" ++ si.gitHash ++ "\r\n"
    ++ "go_version:" ++ si.goVersion ++ "\r\n"
    ++ "go_compiler:" ++ si.goCompiler ++ "\r\n"
    ++ "os:" ++ si.osName ++ "\r\n"
    ++ "arch:" ++ si.arch ++ "\r\n"
    ++ "process_id:" ++ toString si.processId ++ "\r\n"
    ++ "tcp_port:" ++ toString si.tcpPort ++ "\r\n"
    ++ "executable:" ++ si.executable ++ "\r\n"
    ++ "hostname:" ++ si.hostname ++ "\r\n"

/-- The `# Memory` block (info_cmd.go:72-101). -/
def memorySection (m : MemStats) : String :=
  "# Memory\r\n"
    ++ "alloc:" ++ toString m.alloc ++ "\r\n"
    ++ "total_alloc:" ++ toString m.totalAlloc ++ "\r\n"
    ++ "sys:" ++ toString m.sys ++ "\r\n"
    ++ "lookups:" ++ toString m.lookups ++ "\r\n"
    ++ "mallocs:" ++ toString m.mallocs ++ "\r\n"
    ++ "frees:" ++ toString m.frees ++ "\r\n"
    ++ "heap_alloc:" ++ toString m.heapAlloc ++ "\r\n"
    ++ "heap_sys:" ++ toString m.heapSys ++ "\r\n"
    ++ "heap_idle:" ++ toString m.heapIdle ++ "\r\n"
    ++ "heap_in_use:" ++ toString m.heapInuse ++ "\r\n"
    ++ "heap_released:" ++ toString m.heapReleased ++ "\r\n"
    ++ "heap_objects:" ++ toString m.heapObjects ++ "\r\n"
    ++ "stack_in_use:" ++ toString m.stackInuse ++ "\r\n"
    ++ "stack_sys:" ++ toString m.stackSys ++ "\r\n"
    ++ "mspan_in_use:" ++ toString m.mspanInuse ++ "\r\n"
    ++ "mspan_sys:" ++ toString m.mspanSys ++ "\r\n"
    ++ "mcache_in_use:" ++ toString m.mcacheInuse ++ "\r\n"
    ++ "mcache_sys:" ++ toString m.mcacheSys ++ "\r\n"
    ++ "buck_hash_sys:" ++ toString m.buckHashSys ++ "\r\n"
    ++ "gc_sys:" ++ toString m.gcSys ++ "\r\n"
    ++ "other_sys:" ++ toString m.otherSys ++ "\r\n"
    ++ "next_gc:" ++ toString m.nextGC ++ "\r\n"
    ++ "last_gc:" ++ toString m.lastGC ++ "\r\n"
    ++ "pause_total_ns:" ++ toString m.pauseTotalNs ++ "\r\n"
    ++ "num_gc:" ++ toString m.numGC ++ "\r\n"
    ++ "num_forced_gc:" ++ toString m.numForcedGC ++ "\r\n"
    ++ "gc_cpu_fraction:" ++ m.gcCpuFraction ++ "\r\n"

/-- The `# CPU` block (info_cmd.go:109-112). -/
def cpuSection (si : SysInfo) : String :=
  "# CPU\r\n"
    ++ "num_cpu:" ++ toString si.numCpu ++ "\r\n"
    ++ "num_goroutines:" ++ toString si.numGoroutines ++ "\r\n"
    ++ "gomaxprocs:" ++ toString si.gomaxprocs ++ "\r\n"

/-- The `# Stats` block body (info_cmd.go:120-123). -/
def statsSection (kvs : List (String × String)) : String :=
  "# Stats\r\n" ++ String.join (kvs.map (fun kv => kv.1 ++ ":" ++ kv.2 ++ "\r\n"))

/-- The body built by `infoCmd.Execute` (info_cmd.go:44-124): each block
is appended when its section is selected (empty section selects all),
preceded by a blank line when the buffer is non-empty; the `# Stats`
block only when `s.Stats` is non-nil. -/
def infoBody (si : SysInfo) (sectionName : String) : String :=
  let buf := ""
  let buf := if sectionName = "server" || sectionName = "" then buf ++ serverSection si else buf
  let buf :=
    if sectionName = "memory" || sectionName = "" then
      (if buf ≠ "" then buf ++ "\r\n" else buf) ++ memorySection si.mem
    else buf
  let buf :=
    if sectionName = "cpu" || sectionName = "" then
      (if buf ≠ "" then buf ++ "\r\n" else buf) ++ cpuSection si
    else buf
  match si.stats with
  | Option.some kvs =>
    if sectionName = "stats" || sectionName = "" then
      (if buf ≠ "" then buf ++ "\r\n" else buf) ++ statsSection kvs
    else buf
  | Option.none => buf

/-- `func (c infoCmd) Execute` (info_cmd.go:34-127): arity check, the
optional section argument is lowercased, and the reply value is
`buf.Bytes()` — a `[]byte`. -/
def infoExecute (cmdName : String) (req : List String) (si : SysInfo) : RValue :=
  if req.length < 1 || req.length > 2 then
    RValue.respError ("ERR wrong number of arguments for " ++ cmdName)
  else
    let sectionName :=
      match req with
      | [_, s] => s.toLower
      | _ => ""
    RValue.byteSlice (infoBody si sectionName)

/-! ## Server lifecycle (src/server/server.go)

The server state constants `none`, `started`, `closed`
(server.go:301-306) and the lifecycle of `Server.serve`
(server.go:432-467). -/

inductive ServerLifeState where
  | none
  | started
  | closed
deriving DecidableEq

/-- The fields of `server.Server` that `serve` mutates under `s.mu`. -/
structure Server where
  state : ServerLifeState
  tunnels : Option (List (tunnelKey × Tunnel))
deriving DecidableEq

/-- The entry transition of `Server.serve` (server.go:433-451): reject
a started or closed server, otherwise allocate the (empty) tunnel map
and move to `started`. -/
def Server.serveBegin (s : Server) : Except String Server :=
  match s.state with
  | ServerLifeState.none =>
    Except.ok { s with state := ServerLifeState.started, tunnels := Option.some [] }
  | ServerLifeState.started => Except.error "server already started"
  | ServerLifeState.closed => Except.error "server closed"

/-- The deferred teardown of `Server.serve` (server.go:453-464): call
`KillAndWait` on every tunnel in the map, drop the map (`nil`) and move
to `closed`.  The second component logs the `KillAndWait` call made for
each entry. -/
def Server.serveFinish (s : Server) :
    Server × List (tunnelKey × (KillAndWaitResult × Bool)) :=
  ({ s with state := ServerLifeState.closed, tunnels := Option.none },
    (s.tunnels.getD []).map (fun p => (p.1, Tunnel.KillAndWait (Option.some p.2))))

/-! ## Concrete inputs used by counterexamples and witnesses -/

/-- A freshly constructed Tunnel (state `none`) whose `KillFunc` is nil,
e.g. a bare `&Tunnel{...}` literal; `killed` is the nil channel. -/
def freshNilKillTunnel : Tunnel :=
  ⟨TunnelState.none, ⟨⟨0, 0⟩⟩, true, Option.none⟩

/-- A Tunnel exactly as `getTunnelAddr` constructs it (server.go:388-397):
state `none`, `KillFunc := cancel` (non-nil), `Serve` not yet executed,
so `killed` is still the nil channel. -/
def freshLaunchedTunnel : Tunnel :=
  ⟨TunnelState.none, ⟨⟨0, 0⟩⟩, false, Option.none⟩

/-- A concrete registry key. -/
def key0 : tunnelKey :=
  ⟨"root", ⟨"127.0.0.1", 22⟩, ⟨"remote", 7000⟩⟩

/-- The registry map right after `getTunnelAddr` launched a tunnel for
`key0` on the empty registry. -/
def registryAfterLaunch : RegistryMap :=
  registryStep [] (RegistryEvent.getTunnelAddrLaunch key0)

/-- A transient accept error (root implements `Temporary() bool`
returning true), e.g. "too many open files". -/
def tempErrEx : AcceptError :=
  ⟨"too many open files", true, true⟩

/-- The transient-error serve step: accept fails with a temporary error
and the stop signal has not fired. -/
def transientStep (e : AcceptError) : ServeStep :=
  ⟨AcceptOutcome.err e, false⟩

/-! ## C1 — Tunnel.Touch -/

/-- Claim C1 (counterexample): the claim states that `Touch` returns
false whenever the state is not serving, hence on a fresh Tunnel; but on
a fresh (state `none`) Tunnel the source only rejects `closed`, so
`Touch` returns true. -/
theorem c1_touch_counterexample :
    freshNilKillTunnel.state ≠ TunnelState.started ∧
    (Tunnel.Touch (Option.some freshNilKillTunnel)).2 = true := by
  constructor
  · decide
  · decide

/-- Claim C1 (amended): `Touch` returns false iff the receiver is nil or
the tunnel's state is closed; on a nil or closed tunnel it has no side
effect, and on a fresh or serving tunnel it records activity on the idle
tracker (incrementing its counter) and returns true. -/
theorem c1_touch_false_iff_nil_or_closed :
    (∀ ot : Option Tunnel, (Tunnel.Touch ot).2 = false ↔
      ot = Option.none ∨ ∃ t, ot = Option.some t ∧ t.state = TunnelState.closed) ∧
    Tunnel.Touch Option.none = (Option.none, false) ∧
    (∀ sv kf kd, Tunnel.Touch (Option.some ⟨TunnelState.closed, sv, kf, kd⟩) =
      (Option.some ⟨TunnelState.closed, sv, kf, kd⟩, false)) ∧
    (∀ sv kf kd, Tunnel.Touch (Option.some ⟨TunnelState.none, sv, kf, kd⟩) =
      (Option.some ⟨TunnelState.none, ⟨sv.idleTracker.touch⟩, kf, kd⟩, true)) ∧
    (∀ sv kf kd, Tunnel.Touch (Option.some ⟨TunnelState.started, sv, kf, kd⟩) =
      (Option.some ⟨TunnelState.started, ⟨sv.idleTracker.touch⟩, kf, kd⟩, true)) := by
  refine ⟨?_, rfl, fun sv kf kd => rfl, fun sv kf kd => rfl, fun sv kf kd => rfl⟩
  intro ot
  cases ot with
  | none => simp [Tunnel.Touch]
  | some t =>
    by_cases h : t.state = TunnelState.closed
    · simp [Tunnel.Touch, h]
    · simp [Tunnel.Touch, h]

/-! ## C9 — Tunnel.KillAndWait on a fresh Tunnel -/

/-- Claim C9 (counterexample): the claim states that `KillAndWait` on a
fresh Tunnel with a non-nil `KillFunc` is a no-op that returns without
blocking; but the source invokes `KillFunc` and then receives from the
nil `killed` channel, which blocks forever. -/
theorem c9_killandwait_counterexample :
    Tunnel.KillAndWait (Option.some freshLaunchedTunnel) =
      (KillAndWaitResult.blocksForever, true) ∧
    KillAndWaitResult.blocksForever ≠ KillAndWaitResult.returnsNow := by
  constructor
  · decide
  · decide

/-- Claim C9 (amended): `KillAndWait` on a fresh (never-served) Tunnel
is a no-op only when the receiver or its `KillFunc` is nil; when the
`KillFunc` is non-nil (as set by `getTunnelAddr`) it invokes `KillFunc`
and then blocks forever on the nil `killed` channel, which `Serve` has
not yet allocated. -/
theorem c9_killandwait_fresh :
    Tunnel.KillAndWait Option.none = (KillAndWaitResult.returnsNow, false) ∧
    (∀ st sv kd, Tunnel.KillAndWait (Option.some ⟨st, sv, true, kd⟩) =
      (KillAndWaitResult.returnsNow, false)) ∧
    (∀ st sv, Tunnel.KillAndWait (Option.some ⟨st, sv, false, Option.none⟩) =
      (KillAndWaitResult.blocksForever, true)) :=
  ⟨rfl, fun _ _ _ => rfl, fun _ _ => rfl⟩

/-! ## C3 — killTunnel lock discipline -/

/-- Claim C3 (counterexample): the claim states that `killTunnel`
invokes `KillAndWait` while no longer holding the registry lock; but in
the trace of `killTunnel` the `KillAndWait` call (index 2) executes
between the lock acquisition (index 0) and the deferred release
(index 3), i.e. while the lock is held. -/
theorem c3_killtunnel_counterexample :
    (killTunnelTrace true)[2]? = Option.some KillTunnelEvent.killAndWaitCall ∧
    lockHeldAt (killTunnelTrace true) 2 := by
  constructor
  · decide
  · decide

/-- Claim C3 (amended): `killTunnel` fetches the Tunnel and invokes
`KillAndWait` while still holding the registry lock — the deferred
unlock runs only after `KillAndWait` returns — so a concurrent
`getTunnelAddr` blocks on the registry mutex for the whole teardown;
when the key is absent no `KillAndWait` call is made. -/
theorem c3_killtunnel_lock_held :
    (∀ i, (killTunnelTrace true)[i]? = Option.some KillTunnelEvent.killAndWaitCall →
      lockHeldAt (killTunnelTrace true) i) ∧
    KillTunnelEvent.killAndWaitCall ∈ killTunnelTrace true ∧
    KillTunnelEvent.killAndWaitCall ∉ killTunnelTrace false := by
  refine ⟨?_, by decide, by decide⟩
  intro i h
  have hlt : i < (killTunnelTrace true).length := by
    rcases Nat.lt_or_ge i (killTunnelTrace true).length with hl | hg
    · exact hl
    · rw [List.getElem?_eq_none hg] at h
      exact absurd h (by simp)
  have h4 : i < 4 := by simpa [killTunnelTrace] using hlt
  interval_cases i
  · revert h; decide
  · revert h; decide
  · decide
  · revert h; decide

/-- Claim C3 (witness): the amended theorem applied at the concrete
index of the `KillAndWait` call. -/
theorem c3_killtunnel_lock_held_witness :
    lockHeldAt (killTunnelTrace true) 2 :=
  c3_killtunnel_lock_held.1 2 (by decide)

/-! ## C10 — Server.serve lifecycle -/

/-- Claim C10: a Server serves at most once: `serve` on a started server
returns "server already started", on a closed server "server closed";
entry moves a fresh server to `started` with a fresh empty tunnel map,
and the deferred teardown calls `KillAndWait` on every tunnel in the
map, drops the map (nil) and sets the state to `closed`. -/
theorem c10_server_serve_lifecycle :
    (∀ t, Server.serveBegin ⟨ServerLifeState.none, t⟩ =
      Except.ok ⟨ServerLifeState.started, Option.some []⟩) ∧
    (∀ t, Server.serveBegin ⟨ServerLifeState.started, t⟩ =
      Except.error "server already started") ∧
    (∀ t, Server.serveBegin ⟨ServerLifeState.closed, t⟩ =
      Except.error "server closed") ∧
    (∀ s, (Server.serveFinish s).1.state = ServerLifeState.closed ∧
      (Server.serveFinish s).1.tunnels = Option.none) ∧
    (∀ s k tn, (k, tn) ∈ s.tunnels.getD [] →
      (k, Tunnel.KillAndWait (Option.some tn)) ∈ (Server.serveFinish s).2) := by
  refine ⟨fun t => rfl, fun t => rfl, fun t => rfl, fun s => ⟨rfl, rfl⟩, ?_⟩
  intro s k tn h
  exact List.mem_map_of_mem (fun p => (p.1, Tunnel.KillAndWait (Option.some p.2))) h

/-- Claim C10 (witness): the lifecycle theorem applied to a concrete
started server holding one tunnel. -/
theorem c10_server_serve_lifecycle_witness :
    (key0, Tunnel.KillAndWait (Option.some freshLaunchedTunnel)) ∈
      (Server.serveFinish
        ⟨ServerLifeState.started, Option.some [(key0, freshLaunchedTunnel)]⟩).2 :=
  c10_server_serve_lifecycle.2.2.2.2
    ⟨ServerLifeState.started, Option.some [(key0, freshLaunchedTunnel)]⟩
    key0 freshLaunchedTunnel (by decide)

/-! ## C2 — registry entries and the fresh state -/

/-- Lookup after a Go map write: the written key reads back the new
entry, other keys are unaffected. -/
theorem registryLookup_insert (m : RegistryMap) (k k2 : tunnelKey) (e : RegisteredTunnel) :
    registryLookup (registryInsert m k e) k2 =
      if k = k2 then Option.some e else registryLookup m k2 := by
  induction m with
  | nil =>
    by_cases h : k = k2 <;> simp [registryInsert, registryLookup, h]
  | cons p rest ih =>
    obtain ⟨k3, e3⟩ := p
    by_cases h3 : k3 = k
    · subst h3
      by_cases h2 : k3 = k2 <;> simp [registryInsert, registryLookup, h2]
    · by_cases h2 : k3 = k2
      · subst h2
        have hk : ¬k = k3 := fun hh => h3 hh.symm
        simp [registryInsert, registryLookup, h3, hk]
      · simp [registryInsert, registryLookup, h3, h2, ih]

/-- Claim C2 (counterexample): the claim states that a Tunnel recorded
in the registry map is never fresh; but right after `getTunnelAddr`
stores a new tunnel and spawns its Serve goroutine (both under the
lock), the map holds that tunnel still in state `none` — the goroutine
has not yet run the fresh→started transition. -/
theorem c2_registry_counterexample :
    RegistryReachable registryAfterLaunch ∧
    registryLookup registryAfterLaunch key0 =
      Option.some ⟨TunnelState.none, true⟩ ∧
    TunnelState.none ≠ TunnelState.started ∧
    TunnelState.none ≠ TunnelState.closed := by
  refine ⟨RegistryReachable.step [] _ RegistryReachable.init, ?_, by decide, by decide⟩
  decide

/-- Claim C2 (amended): a Tunnel recorded in the registry map can be
momentarily fresh, but only with its Serve goroutine already spawned
(insertion and the `go serveTunnel` happen together under the registry
lock): in every reachable registry state, every entry has
`serveSpawned = true`. -/
theorem c2_registry_entries_serve_spawned :
    ∀ m, RegistryReachable m → ∀ k e,
      registryLookup m k = Option.some e → e.serveSpawned = true := by
  intro m hreach
  induction hreach with
  | init => intro k e h; simp [registryLookup] at h
  | step m2 ev _ ih =>
    intro k e h
    cases ev with
    | getTunnelAddrHit k2 => exact ih k e h
    | getTunnelAddrLaunch k2 =>
      simp only [registryStep] at h
      rw [registryLookup_insert] at h
      by_cases hk : k2 = k
      · simp [hk] at h
        rw [← h]
      · simp [hk] at h
        exact ih k e h
    | tunnelServeStart k2 =>
      simp only [registryStep] at h
      split at h
      next e2 hl =>
        split at h
        next =>
          rw [registryLookup_insert] at h
          by_cases hk : k2 = k
          · simp [hk] at h
            rw [← h]
            exact ih k2 e2 hl
          · simp [hk] at h
            exact ih k e h
        next => exact ih k e h
      next => exact ih k e h
    | tunnelServeReturn k2 =>
      simp only [registryStep] at h
      split at h
      next e2 hl =>
        split at h
        next =>
          rw [registryLookup_insert] at h
          by_cases hk : k2 = k
          · simp [hk] at h
            rw [← h]
            exact ih k2 e2 hl
          · simp [hk] at h
            exact ih k e h
        next => exact ih k e h
      next => exact ih k e h

/-- Claim C2 (witness): the invariant applied to the reachable registry
state holding one freshly launched tunnel. -/
theorem c2_registry_entries_serve_spawned_witness :
    (⟨TunnelState.none, true⟩ : RegisteredTunnel).serveSpawned = true :=
  c2_registry_entries_serve_spawned registryAfterLaunch
    (RegistryReachable.step [] _ RegistryReachable.init)
    key0 ⟨TunnelState.none, true⟩ (by decide)

/-! ## C4 — capped exponential backoff -/

/-- The retry delay after n consecutive applications of
`handleTemporaryDelay` starting from delay d. -/
def delayIterate : Nat → Nat → Nat
  | 0, d => d
  | n + 1, d => delayIterate n (handleTemporaryDelay d)

/-- The total time slept over n consecutive transient errors starting
from delay d (each step sleeps the updated delay, retryserver.go:126). -/
def sleepIterate : Nat → Nat → Nat
  | 0, _ => 0
  | n + 1, d => handleTemporaryDelay d + sleepIterate n (handleTemporaryDelay d)

/-- One doubling step on a capped value: updating the delay
`min (5 * 2 ^ j) 1000` yields `min (5 * 2 ^ (j+1)) 1000`. -/
theorem handleTemporaryDelay_min (j : Nat) :
    handleTemporaryDelay (min (5 * 2 ^ j) 1000) = min (5 * 2 ^ (j + 1)) 1000 := by
  have hpos : 0 < 5 * 2 ^ j := by positivity
  have hdouble : 5 * 2 ^ (j + 1) = 2 * (5 * 2 ^ j) := by ring
  rcases le_or_lt (5 * 2 ^ j) 1000 with hle | hlt
  · rw [show min (5 * 2 ^ j) 1000 = 5 * 2 ^ j from by rw [Nat.min_def, if_pos hle]]
    simp only [handleTemporaryDelay, Nat.min_def]
    split_ifs <;> omega
  · rw [show min (5 * 2 ^ j) 1000 = 1000 from by
      rw [Nat.min_def, if_neg (by omega)]]
    have h1000 : handleTemporaryDelay 1000 = 1000 := by decide
    rw [h1000, Nat.min_def]
    split_ifs <;> omega

/-- Closed form of the delay iteration from a capped starting value. -/
theorem delayIterate_min (k j : Nat) :
    delayIterate k (min (5 * 2 ^ j) 1000) = min (5 * 2 ^ (j + k)) 1000 := by
  induction k generalizing j with
  | zero => simp [delayIterate]
  | succ k ih =>
    rw [delayIterate, handleTemporaryDelay_min, ih (j + 1),
      show j + 1 + k = j + (k + 1) from by omega]

/-- Closed form of the delay after n+1 consecutive transient errors
starting from a reset delay: `min (5 * 2 ^ n) 1000` ms. -/
theorem delayIterate_zero (n : Nat) :
    delayIterate (n + 1) 0 = min (5 * 2 ^ n) 1000 := by
  have h5 : handleTemporaryDelay 0 = min (5 * 2 ^ 0) 1000 := by decide
  rw [delayIterate, h5, delayIterate_min, Nat.zero_add]

/-- Closed form of the total sleep from a capped starting value. -/
theorem sleepIterate_min (k j : Nat) :
    sleepIterate k (min (5 * 2 ^ j) 1000) =
      ∑ i ∈ Finset.range k, min (5 * 2 ^ (j + 1 + i)) 1000 := by
  induction k generalizing j with
  | zero => simp [sleepIterate]
  | succ k ih =>
    rw [sleepIterate, handleTemporaryDelay_min, ih (j + 1), Finset.sum_range_succ']
    have h1 : ∀ i : Nat, j + 1 + 1 + i = j + 1 + (i + 1) := fun i => by omega
    have h2 : j + 1 + 0 = j + 1 := by omega
    simp only [h1, h2]
    omega

/-- Total sleep over n+1 consecutive transient errors from a reset
delay: the sum of the capped geometric series 5, 10, 20, ..., 1000. -/
theorem sleepIterate_zero (n : Nat) :
    sleepIterate (n + 1) 0 = backoffSum (n + 1) := by
  have h5 : handleTemporaryDelay 0 = min (5 * 2 ^ 0) 1000 := by decide
  rw [sleepIterate, h5, sleepIterate_min, backoffSum, Finset.sum_range_succ']
  simp only [backoffSchedule]
  have h1 : ∀ i : Nat, 0 + 1 + i = i + 1 := fun i => by omega
  simp only [h1]
  omega

/-- Unfolding the serve loop over a run of consecutive transient accept
errors: the delay and total sleep advance by the iteration functions and
each error is reported in order. -/
theorem serveLoop_replicate_transient (e : AcceptError) (he : e.isTemporary = true) :
    ∀ (n : Nat) (rest : List ServeStep) (d s a : Nat) (r : List AcceptError),
      ServeLoop (List.replicate n (transientStep e) ++ rest) d s a r =
        ServeLoop rest (delayIterate n d) (s + sleepIterate n d) a
          (r ++ List.replicate n e) := by
  intro n
  induction n with
  | zero => intro rest d s a r; simp [delayIterate, sleepIterate]
  | succ n ih =>
    intro rest d s a r
    rw [List.replicate_succ, List.cons_append]
    have hstep : ServeLoop (transientStep e :: (List.replicate n (transientStep e) ++ rest))
        d s a r =
        ServeLoop (List.replicate n (transientStep e) ++ rest)
          (handleTemporaryDelay d) (s + handleTemporaryDelay d) a (r ++ [e]) := by
      simp [ServeLoop, transientStep, he]
    rw [hstep, ih]
    rw [delayIterate, sleepIterate]
    congr 1
    · omega
    · rw [List.append_assoc, List.replicate_succ]
      rfl

/-- Claim C4: for every run of consecutive transient accept errors
starting after a reset, the serve loop sleeps the capped geometric
schedule — the (i+1)-st error waits `min (5 * 2 ^ i) 1000` ms, for a
total of `backoffSum (n+1)` over n+1 errors, leaving the delay at
`min (5 * 2 ^ n) 1000` — a successful accept resets the delay to 0, the
first delay after a reset is 5 ms, and no delay ever exceeds 1 s. -/
theorem c4_backoff_schedule :
    (∀ e : AcceptError, e.isTemporary = true →
      ∀ (n s a : Nat) (rest : List ServeStep) (r : List AcceptError),
        ServeLoop (List.replicate (n + 1) (transientStep e) ++ rest) 0 s a r =
          ServeLoop rest (min (5 * 2 ^ n) 1000) (s + backoffSum (n + 1)) a
            (r ++ List.replicate (n + 1) e)) ∧
    (∀ (b : Bool) (rest : List ServeStep) (d s a : Nat) (r : List AcceptError),
      ServeLoop (⟨AcceptOutcome.conn, b⟩ :: rest) d s a r = ServeLoop rest 0 s (a + 1) r) ∧
    handleTemporaryDelay 0 = 5 ∧
    (∀ d : Nat, handleTemporaryDelay d ≤ 1000) := by
  refine ⟨?_, fun b rest d s a r => rfl, by decide, ?_⟩
  · intro e he n s a rest r
    rw [serveLoop_replicate_transient e he, delayIterate_zero, sleepIterate_zero]
  · intro d
    simp only [handleTemporaryDelay]
    split_ifs <;> omega

/-- Claim C4 (witness): one transient error after a reset sleeps
exactly 5 ms. -/
theorem c4_backoff_schedule_witness :
    ServeLoop (List.replicate 1 (transientStep tempErrEx) ++ []) 0 0 0 [] =
      ServeLoop [] (min (5 * 2 ^ 0) 1000) (0 + backoffSum 1) 0
        ([] ++ List.replicate 1 tempErrEx) :=
  c4_backoff_schedule.1 tempErrEx (by decide) 0 0 0 [] []

/-! ## C5 — what Serve returns -/

/-- A script whose single step is a transient accept error arriving
after the stop signal has fired. -/
def doneTransientScript : List ServeStep :=
  [⟨AcceptOutcome.err tempErrEx, true⟩]

/-- Claim C5 (counterexample): the claim states that `Serve` never
returns a transient accept error; but when the stop signal has fired,
the post-error `select` returns the error before the transient check, so
a transient error is returned to the caller. -/
theorem c5_serve_counterexample :
    ServeLoop doneTransientScript 0 0 0 [] =
      Option.some ⟨tempErrEx, true, 0, 0, []⟩ ∧
    tempErrEx.isTemporary = true := by
  constructor
  · decide
  · decide

/-- Claim C5 (amended): while the stop signal has not fired, `Serve`
never returns a transient accept error — every error it returns is
either non-transient or returned through the stop-signal branch; an
accept error whose transient predicate returns false, or whose root does
not implement the predicate, is returned immediately, with no additional
backoff sleep and nothing further reported; and every return carries the
(always non-nil) error of the failing accept. -/
theorem c5_serve_error_return :
    (∀ (script : List ServeStep) (d s a : Nat) (r : List AcceptError) (res : ServeReturn),
      ServeLoop script d s a r = Option.some res →
      res.retErr.isTemporary = true → res.retAfterDone = true) ∧
    (∀ (msg : String) (tv : Bool) (rest : List ServeStep) (d s a : Nat) (r : List AcceptError),
      ServeLoop (⟨AcceptOutcome.err ⟨msg, false, tv⟩, false⟩ :: rest) d s a r =
        Option.some ⟨⟨msg, false, tv⟩, false, s, a, r⟩) ∧
    (∀ (msg : String) (ht : Bool) (rest : List ServeStep) (d s a : Nat) (r : List AcceptError),
      ServeLoop (⟨AcceptOutcome.err ⟨msg, ht, false⟩, false⟩ :: rest) d s a r =
        Option.some ⟨⟨msg, ht, false⟩, false, s, a, r⟩) := by
  refine ⟨?_, ?_, ?_⟩
  · intro script
    induction script with
    | nil => intro d s a r res h; simp [ServeLoop] at h
    | cons step rest ih =>
      intro d s a r res h htemp
      obtain ⟨acc, dn⟩ := step
      cases acc with
      | conn => exact ih 0 s (a + 1) r res (by simpa [ServeLoop] using h) htemp
      | err e =>
        cases dn with
        | true =>
          simp [ServeLoop] at h
          rw [← h] at htemp ⊢
        | false =>
          by_cases hT : e.isTemporary = true
          · simp only [ServeLoop, Bool.false_eq_true, if_false, hT, if_true] at h
            exact ih _ _ _ _ res h htemp
          · have hT2 : e.isTemporary = false := by
              cases hq : e.isTemporary
              · rfl
              · exact absurd hq hT
            simp only [ServeLoop, Bool.false_eq_true, if_false, hT2] at h
            injection h with h2
            rw [← h2] at htemp
            simp [hT2] at htemp
  · intro msg tv rest d s a r
    simp [ServeLoop, AcceptError.isTemporary]
  · intro msg ht rest d s a r
    simp [ServeLoop, AcceptError.isTemporary]

/-- Claim C5 (witness): the amended theorem applied to the concrete
one-step script whose transient error arrives after the stop signal. -/
theorem c5_serve_error_return_witness :
    (⟨tempErrEx, true, 0, 0, []⟩ : ServeReturn).retAfterDone = true :=
  c5_serve_error_return.1 doneTransientScript 0 0 0 []
    ⟨tempErrEx, true, 0, 0, []⟩ (by decide) (by decide)

/-! ## C6 — the COMMAND reply -/

/-- Claim C6 (counterexample): the claim states that COMMAND replies
`checkupdates, command, gettunneladdr, info, killtunnel, ping`; but the
command table built by `init` (server.go:280-293) registers no
`checkupdates` key, so the sorted name list does not contain it. -/
theorem c6_command_counterexample :
    commandCmdExecute ["command"] ≠
      ["checkupdates", "command", "gettunneladdr", "info", "killtunnel", "ping"] ∧
    "checkupdates" ∉ commandCmdExecute ["command"] := by
  constructor
  · decide
  · decide

/-- Claim C6 (amended): the COMMAND command, given argv of length 1,
replies with the array of all registered command names in sorted order,
namely `command, gettunneladdr, info, killtunnel, ping` — a sorted
permutation of the registered keys; `checkupdates` is implemented but
not registered in the command table. -/
theorem c6_command_names :
    commandCmdExecute ["command"] =
      ["command", "gettunneladdr", "info", "killtunnel", "ping"] ∧
    List.Sorted (fun a b : String => stringLe a b = true) (commandCmdExecute ["command"]) ∧
    (commandCmdExecute ["command"]).Perm supportedCommandNames := by
  refine ⟨by decide, by decide, by decide⟩

/-! ## C7 — the CHECKUPDATES boolean -/

/-- Claim C7 (counterexample): the claim states that a missing
`tag_name` is treated as "same" (reply false) for every value of the
embedded Version; but with Version = "v1.0.0" the parsed tag is the
empty string and the reply is `"" != "v1.0.0"`, i.e. true. -/
theorem c7_checkupdates_counterexample :
    checkUpdatesExecute "checkupdates" "v1.0.0" ["checkupdates"]
      (HTTPOutcome.ok TagName.missing) = RValue.boolean true ∧
    RValue.boolean true ≠ RValue.boolean false := by
  constructor
  · rfl
  · simp

/-- Claim C7 (amended): CHECKUPDATES replies the boolean
`tag ≠ Version`, where a missing `tag_name`, a JSON null and an empty
string all parse to the empty string; hence they are treated as "same"
(reply false) exactly when the embedded Version is itself empty, and a
string tag is "same" exactly when it equals Version. -/
theorem c7_checkupdates_semantics :
    (∀ version : String,
      checkUpdatesExecute "checkupdates" version ["checkupdates"]
          (HTTPOutcome.ok TagName.missing) = RValue.boolean false ↔ version = "") ∧
    (∀ version : String,
      checkUpdatesExecute "checkupdates" version ["checkupdates"] (HTTPOutcome.ok TagName.null) =
        checkUpdatesExecute "checkupdates" version ["checkupdates"]
          (HTTPOutcome.ok TagName.missing)) ∧
    (∀ version : String,
      checkUpdatesExecute "checkupdates" version ["checkupdates"]
          (HTTPOutcome.ok (TagName.tag "")) =
        checkUpdatesExecute "checkupdates" version ["checkupdates"]
          (HTTPOutcome.ok TagName.missing)) ∧
    (∀ version s : String,
      checkUpdatesExecute "checkupdates" version ["checkupdates"]
          (HTTPOutcome.ok (TagName.tag s)) = RValue.boolean false ↔ s = version) := by
  refine ⟨?_, fun version => rfl, fun version => rfl, ?_⟩
  · intro version
    show RValue.boolean ("" != version) = RValue.boolean false ↔ version = ""
    constructor
    · intro h
      injection h with h2
      simp only [bne, Bool.not_eq_false'] at h2
      exact (eq_of_beq h2).symm
    · intro h
      subst h
      rfl
  · intro version s
    show RValue.boolean (s != version) = RValue.boolean false ↔ s = version
    constructor
    · intro h
      injection h with h2
      simp only [bne, Bool.not_eq_false'] at h2
      exact eq_of_beq h2
    · intro h
      subst h
      simp [bne]

/-! ## C8 — the INFO reply and the encoder -/

/-- Claim C8 (code bug): for every INFO request with argv length 1 or 2
the command returns `buf.Bytes()`, a `[]byte` value, and the RESP
encoder's type switch has no `[]byte` case, so encoding fails with
`ErrInvalidValue` — the bulk-string reply the spec promises is never
delivered (the read/write loop closes the connection on the encode
error). -/
theorem c8_info_reply_rejected_by_encoder :
    (∀ si : SysInfo,
      infoExecute "info" ["info"] si = RValue.byteSlice (infoBody si "") ∧
      encodeValue (infoExecute "info" ["info"] si) = Except.error ErrInvalidValue) ∧
    (∀ (si : SysInfo) (sec : String),
      encodeValue (infoExecute "info" ["info", sec] si) = Except.error ErrInvalidValue) := by
  exact ⟨fun si => ⟨rfl, rfl⟩, fun si sec => rfl⟩

end RegisCompanion
